import Mathlib

/-!
Verification of the API-key authentication core of the Ernesto backend
(`app/auth.py`, `app/models/api_client.py`, `generate_api_key.py`).

Credentials and client names are modelled as `List Char` (Python `str`);
response texts are Lean `String`s. Database state is the list of persisted
`ApiClient` rows; the Flask request gate `require_api_key` is embedded as a
pure function from the presented header and the current client table to a
`GateResult` recording the response, the resulting client table, and whether
the wrapped view function was invoked.
-/

namespace Ernesto

/-- Boolean character membership, embedding Python's `"." in s` test for a
single-character needle. -/
def hasChar (d : Char) : List Char → Bool
  | [] => false
  | c :: cs => if c = d then true else hasChar d cs

/-- Embedding of Python's `s.split(d, 1)` under the assumption that the
delimiter occurs (the gate only splits after checking `"." in header`):
returns the part before the first occurrence of `d` and the part after it. -/
def splitFirst (d : Char) : List Char → List Char × List Char
  | [] => ([], [])
  | c :: cs =>
    if c = d then ([], cs)
    else
      let p := splitFirst d cs
      (c :: p.1, p.2)

/-- Persisted `ApiClient` row (`app/models/api_client.py`): public name,
stored bcrypt hash of the secret, active flag, and usage statistics.
Timestamps are modelled as natural numbers. -/
structure ApiClient where
  name : List Char
  hashed_api_key : List Char
  is_active : Bool
  last_used_at : Option Nat
  use_count : Nat
deriving DecidableEq, Repr

/-- Modelled from the spec: the bcrypt library consumed by `set_api_key` is an
external collaborator (spec 4.2, salted adaptive hash with the salt embedded
in the hash string). `hashpw` stores the salt followed by a marker and the
salt-hashed key; the salt argument stands for `bcrypt.gensalt()`. -/
def hashpw (key salt : List Char) : List Char := salt ++ '$' :: key

/-- Modelled from the spec: bcrypt verification. `checkpw` recovers the salt
embedded in the hash string and compares; on a malformed hash string (no salt
marker) the library raises `ValueError` (modelled as `Except.error`), it does
not return `false`. -/
def checkpw (key hash : List Char) : Except String Bool :=
  if hasChar '$' hash then
    Except.ok (decide ((splitFirst '$' hash).2 = key))
  else
    Except.error "Invalid salt"

/-- Embedding of `ApiClient.validate_name`: the SQLAlchemy validator attached
to the `name` attribute rejects exactly the names containing a dot. -/
def validate_name (name : List Char) : Except String (List Char) :=
  if hasChar '.' name then
    Except.error "Client name cannot contain a dot (\x27.\x27)."
  else
    Except.ok name

/-- Embedding of assigning the `name` attribute of an existing `ApiClient`:
the `@validates` hook runs before the attribute is set, so the assignment
either succeeds with the new name or raises `ValueError`. -/
def set_name (c : ApiClient) (n : List Char) : Except String ApiClient :=
  match validate_name n with
  | Except.error e => Except.error e
  | Except.ok n2 => Except.ok { c with name := n2 }

/-- The stored row after an attempted `name` assignment: on `ValueError` the
attribute set never happens, so the row keeps its prior state. -/
def apply_set_name (c : ApiClient) (n : List Char) : ApiClient :=
  match set_name c n with
  | Except.ok c2 => c2
  | Except.error _ => c

/-- Embedding of `ApiClient.set_api_key`: hash the plaintext key with a fresh
salt and store the hash on the row. -/
def set_api_key (c : ApiClient) (api_key salt : List Char) : ApiClient :=
  { c with hashed_api_key := hashpw api_key salt }

/-- Embedding of `ApiClient.check_api_key`: bcrypt comparison of a presented
key against the stored hash; propagates the bcrypt error on a malformed
stored hash. -/
def check_api_key (c : ApiClient) (api_key : List Char) : Except String Bool :=
  checkpw api_key c.hashed_api_key

/-- Embedding of `ApiClient.create_with_api_key`: construct the row (the
`name` assignment runs the validator), hash a freshly generated key, and
return the row together with the plaintext key. The `api_key` argument stands
for the `secrets.token_urlsafe` output and `salt` for `bcrypt.gensalt()`. -/
def create_with_api_key (name api_key salt : List Char) (is_active : Bool) :
    Except String (ApiClient × List Char) :=
  match validate_name name with
  | Except.error e => Except.error e
  | Except.ok n =>
    let c : ApiClient :=
      { name := n, hashed_api_key := [], is_active := is_active,
        last_used_at := none, use_count := 0 }
    Except.ok (set_api_key c api_key salt, api_key)

deriving instance DecidableEq for Except

/-- Predicate for an error result, embedding Python's raised `ValueError`. -/
def isError {α : Type} : Except String α → Bool
  | Except.error _ => true
  | Except.ok _ => false

/-- Caller-visible outcome of one gate evaluation: either a JSON error
response with its HTTP status, or the value of the wrapped view function. -/
inductive Response where
  | errorResp (error message : String) (status : Nat)
  | wrapped
deriving DecidableEq, Repr

/-- Result of one gate evaluation: the response, the client table after the
evaluation, and whether the wrapped view function was invoked. -/
structure GateResult where
  response : Response
  clients : List ApiClient
  wrappedInvoked : Bool
deriving DecidableEq, Repr

/-- Rejection for a missing or empty `X-API-Key` header (auth.py lines 49-58). -/
def missingCredentialResp : Response :=
  Response.errorResp "Authentication failed" "API key is required" 401

/-- Rejection for a header containing no dot (auth.py lines 61-73). -/
def invalidFormatResp : Response :=
  Response.errorResp "Authentication failed" "Invalid API key format" 401

/-- Rejection for an empty name or secret part (auth.py lines 76-88). -/
def malformedKeyResp : Response :=
  Response.errorResp "Authentication failed" "Malformed API key" 401

/-- Shared rejection for unknown, inactive, and wrong-secret cases
(auth.py lines 95-109). -/
def invalidOrInactiveResp : Response :=
  Response.errorResp "Authentication failed" "Invalid or inactive API key" 401

/-- Response when the directory query raises `SQLAlchemyError`
(auth.py lines 136-149). -/
def serviceUnavailableResp : Response :=
  Response.errorResp "Authentication service unavailable" "Please try again later" 500

/-- Response when any other exception escapes the pipeline
(auth.py lines 150-164). -/
def serviceErrorResp : Response :=
  Response.errorResp "Authentication service error" "Please try again later" 500

/-- Embedding of `ApiClient.query.filter_by(name=n, is_active=True)`: the
row-matching predicate of the gate's lookup. -/
def matchesQuery (n : List Char) (c : ApiClient) : Bool :=
  decide (c.name = n) && c.is_active

/-- First row satisfying the filter, embedding `.first()` on the filtered
query. -/
def query_first_active (clients : List ApiClient) (n : List Char) :
    Option ApiClient :=
  (clients.filter (matchesQuery n)).head?

/-- The usage-statistics write of the gate (auth.py lines 116-117):
`last_used_at = datetime.utcnow()` and `use_count += 1`. -/
def touchUsage (now : Nat) (c : ApiClient) : ApiClient :=
  { c with last_used_at := some now, use_count := c.use_count + 1 }

/-- Update the first row satisfying `p`, embedding the ORM mutation of the
single row object returned by the query. -/
def updateFirst (p : ApiClient → Bool) (f : ApiClient → ApiClient) :
    List ApiClient → List ApiClient
  | [] => []
  | c :: cs => if p c then f c :: cs else c :: updateFirst p f cs

/-- Embedding of the `require_api_key` decorator body (auth.py
`decorated_function`). `header` is the `X-API-Key` header (`none` when
absent), `clients` the persisted client table, `now` the verification
timestamp, `lookupOk` whether the directory query succeeds (false models
`SQLAlchemyError` raised by the query), and `commitOk` whether the
usage-statistics commit succeeds (false models `SQLAlchemyError` on commit,
answered with a rollback). -/
def require_api_key (header : Option (List Char)) (clients : List ApiClient)
    (now : Nat) (lookupOk commitOk : Bool) : GateResult :=
  match header with
  | none =>
    { response := missingCredentialResp, clients := clients,
      wrappedInvoked := false }
  | some h =>
    if h = [] then
      { response := missingCredentialResp, clients := clients,
        wrappedInvoked := false }
    else if hasChar '.' h = false then
      { response := invalidFormatResp, clients := clients,
        wrappedInvoked := false }
    else
      let p := splitFirst '.' h
      if p.1 = [] ∨ p.2 = [] then
        { response := malformedKeyResp, clients := clients,
          wrappedInvoked := false }
      else if lookupOk = false then
        { response := serviceUnavailableResp, clients := clients,
          wrappedInvoked := false }
      else
        match query_first_active clients p.1 with
        | none =>
          { response := invalidOrInactiveResp, clients := clients,
            wrappedInvoked := false }
        | some client =>
          match check_api_key client p.2 with
          | Except.error _ =>
            { response := serviceErrorResp, clients := clients,
              wrappedInvoked := false }
          | Except.ok false =>
            { response := invalidOrInactiveResp, clients := clients,
              wrappedInvoked := false }
          | Except.ok true =>
            { response := Response.wrapped,
              clients :=
                if commitOk then
                  updateFirst (matchesQuery p.1) (touchUsage now) clients
                else
                  clients,
              wrappedInvoked := true }

/-- The three well-formed-credential failure reasons of spec 4.4 steps 3-5:
the named client does not exist, the named client exists but is inactive, or
an active named client is found and the presented secret fails verification. -/
def failsVerification (clients : List ApiClient) (n s : List Char) : Prop :=
  (∀ c ∈ clients, c.name ≠ n) ∨
  ((∃ c ∈ clients, c.name = n) ∧
    (∀ c ∈ clients, c.name = n → c.is_active = false)) ∨
  (∃ c, query_first_active clients n = some c ∧
    check_api_key c s = Except.ok false)

/-- Recognizer for the 401 rejections of the gate (spec 4.4 steps 1-5). -/
def isAuthReject : Response → Bool
  | Response.errorResp _ _ status => decide (status = 401)
  | Response.wrapped => false

/-- A concrete active client whose stored hash lacks the bcrypt salt marker,
i.e. a malformed/corrupt `hashed_api_key`. -/
def corruptHashClient : ApiClient :=
  { name := "bad".toList, hashed_api_key := "nosalt".toList,
    is_active := true, last_used_at := none, use_count := 0 }

/-- A concrete inactive client holding a valid hash of the secret `"sek"`. -/
def inactiveClient : ApiClient :=
  { name := "svc2".toList, hashed_api_key := hashpw "sek".toList "ab".toList,
    is_active := false, last_used_at := none, use_count := 0 }

/-- A concrete active client holding a valid hash of the secret `"sek"`. -/
def activeClient : ApiClient :=
  { name := "svc1".toList, hashed_api_key := hashpw "sek".toList "ab".toList,
    is_active := true, last_used_at := none, use_count := 0 }

end Ernesto

namespace Ernesto

lemma hasChar_append_cons (d : Char) (a b : List Char) :
    hasChar d (a ++ d :: b) = true := by
  induction a with
  | nil => simp [hasChar]
  | cons c cs ih => simp [hasChar, ih]

lemma splitFirst_append (d : Char) (a b : List Char)
    (h : hasChar d a = false) : splitFirst d (a ++ d :: b) = (a, b) := by
  induction a with
  | nil => simp [splitFirst]
  | cons c cs ih =>
    have hc : ¬ c = d := by
      intro e
      simp [hasChar, e] at h
    have h2 : hasChar d cs = false := by
      simpa [hasChar, hc] using h
    simp [splitFirst, hc, ih h2]

lemma append_cons_ne_nil (n s : List Char) (d : Char) : n ++ d :: s ≠ [] := by
  simp

lemma require_api_key_wellformed (n s : List Char) (clients : List ApiClient)
    (now : Nat) (commitOk : Bool) (hn : hasChar '.' n = false)
    (hne : n ≠ []) (hse : s ≠ []) :
    require_api_key (some (n ++ '.' :: s)) clients now true commitOk =
      match query_first_active clients n with
      | none =>
        { response := invalidOrInactiveResp, clients := clients,
          wrappedInvoked := false }
      | some client =>
        match check_api_key client s with
        | Except.error _ =>
          { response := serviceErrorResp, clients := clients,
            wrappedInvoked := false }
        | Except.ok false =>
          { response := invalidOrInactiveResp, clients := clients,
            wrappedInvoked := false }
        | Except.ok true =>
          { response := Response.wrapped,
            clients :=
              if commitOk then
                updateFirst (matchesQuery n) (touchUsage now) clients
              else
                clients,
            wrappedInvoked := true } := by
  have h1 : hasChar '.' (n ++ '.' :: s) = true := hasChar_append_cons '.' n s
  have h2 : splitFirst '.' (n ++ '.' :: s) = (n, s) := splitFirst_append '.' n s hn
  have h3 : n ++ '.' :: s ≠ [] := append_cons_ne_nil n s '.'
  unfold require_api_key
  simp [h1, h2, h3, hne, hse]

/-- C8: forming a credential as `name + "." + secret` from a dot-free name and
a non-empty secret and splitting it on the first dot recovers exactly the pair
`(name, secret)`; the formed credential always contains the delimiter, so the
split is unambiguous. -/
theorem C8_wire_format_roundtrip (n s : List Char)
    (hn : hasChar '.' n = false) (_hs : s ≠ []) :
    splitFirst '.' (n ++ '.' :: s) = (n, s) ∧
      hasChar '.' (n ++ '.' :: s) = true :=
  ⟨splitFirst_append '.' n s hn, hasChar_append_cons '.' n s⟩

/-- Witness for C8 at the credential `"svc1.sek"`. -/
theorem C8_wire_format_roundtrip_witness :
    splitFirst '.' ("svc1".toList ++ '.' :: "sek".toList) =
        ("svc1".toList, "sek".toList) ∧
      hasChar '.' ("svc1".toList ++ '.' :: "sek".toList) = true :=
  C8_wire_format_roundtrip "svc1".toList "sek".toList (by decide) (by decide)

/-- C1: the gate evaluates its checks in order and terminates at the first
failing check: an absent or empty header yields the missing-credential
rejection, a non-empty header without a dot yields the invalid-format
rejection, a header whose split on the first dot has an empty name or secret
yields the malformed-key rejection, and in every case the client table is
unchanged and the wrapped view function is never invoked. -/
theorem C1_gate_first_failing_check (header : Option (List Char))
    (clients : List ApiClient) (now : Nat) (lookupOk commitOk : Bool) :
    ((header = none ∨ header = some []) →
      require_api_key header clients now lookupOk commitOk =
        { response := missingCredentialResp, clients := clients,
          wrappedInvoked := false }) ∧
    (∀ h, header = some h → h ≠ [] → hasChar '.' h = false →
      require_api_key header clients now lookupOk commitOk =
        { response := invalidFormatResp, clients := clients,
          wrappedInvoked := false }) ∧
    (∀ h, header = some h → hasChar '.' h = true →
      ((splitFirst '.' h).1 = [] ∨ (splitFirst '.' h).2 = []) →
      require_api_key header clients now lookupOk commitOk =
        { response := malformedKeyResp, clients := clients,
          wrappedInvoked := false }) := by
  refine ⟨?_, ?_, ?_⟩
  · rintro (rfl | rfl) <;> simp [require_api_key]
  · rintro h rfl hne hdot
    simp [require_api_key, hne, hdot]
  · rintro h rfl hdot hsplit
    have hne : h ≠ [] := by
      intro e
      rw [e] at hdot
      simp [hasChar] at hdot
    simp [require_api_key, hne, hdot, hsplit]

/-- Witness for C1 at the malformed credential `"."` (empty name and secret). -/
theorem C1_gate_first_failing_check_witness :
    require_api_key (some ".".toList) [] 0 true true =
      { response := malformedKeyResp, clients := [], wrappedInvoked := false } :=
  (C1_gate_first_failing_check (some ".".toList) [] 0 true true).2.2
    ".".toList rfl (by decide) (by decide)

lemma query_first_active_eq_none (clients : List ApiClient) (n : List Char)
    (h : ∀ c ∈ clients, c.name = n → c.is_active = false) :
    query_first_active clients n = none := by
  have hfil : clients.filter (matchesQuery n) = [] := by
    rw [List.filter_eq_nil_iff]
    intro c hc
    simp only [matchesQuery, Bool.and_eq_true, decide_eq_true_eq, not_and]
    intro he
    simp [h c hc he]
  simp [query_first_active, hfil]

lemma gate_rejects_invalidOrInactive (clients : List ApiClient)
    (n s : List Char) (now : Nat) (commitOk : Bool)
    (hn : hasChar '.' n = false) (hne : n ≠ []) (hse : s ≠ [])
    (hfail : failsVerification clients n s) :
    require_api_key (some (n ++ '.' :: s)) clients now true commitOk =
      { response := invalidOrInactiveResp, clients := clients,
        wrappedInvoked := false } := by
  rw [require_api_key_wellformed n s clients now commitOk hn hne hse]
  rcases hfail with h1 | ⟨_, h2⟩ | ⟨c, hq, hc⟩
  · rw [query_first_active_eq_none clients n
      (fun c hc he => ((h1 c hc) he).elim)]
  · rw [query_first_active_eq_none clients n h2]
  · simp [hq, hc]

/-- C2: two well-formed credential presentations that fail for any two of the
three reasons of spec 4.4 steps 3-5 (unknown name, inactive client, wrong
secret) receive the identical caller-visible rejection, the shared
invalid-or-inactive response, so the response does not reveal which condition
held. -/
theorem C2_indistinguishable_rejection (clients1 clients2 : List ApiClient)
    (n1 s1 n2 s2 : List Char) (now1 now2 : Nat) (commitOk1 commitOk2 : Bool)
    (hn1 : hasChar '.' n1 = false) (hne1 : n1 ≠ []) (hse1 : s1 ≠ [])
    (hn2 : hasChar '.' n2 = false) (hne2 : n2 ≠ []) (hse2 : s2 ≠ [])
    (hf1 : failsVerification clients1 n1 s1)
    (hf2 : failsVerification clients2 n2 s2) :
    (require_api_key (some (n1 ++ '.' :: s1)) clients1 now1 true commitOk1).response =
      (require_api_key (some (n2 ++ '.' :: s2)) clients2 now2 true commitOk2).response ∧
    (require_api_key (some (n1 ++ '.' :: s1)) clients1 now1 true commitOk1).response =
      invalidOrInactiveResp := by
  rw [gate_rejects_invalidOrInactive clients1 n1 s1 now1 commitOk1 hn1 hne1 hse1 hf1,
    gate_rejects_invalidOrInactive clients2 n2 s2 now2 commitOk2 hn2 hne2 hse2 hf2]
  exact ⟨rfl, rfl⟩

/-- Witness for C2: a wrong secret for the active client `svc1` and a correct
secret for the inactive client `svc2` produce the same response. -/
theorem C2_indistinguishable_rejection_witness :
    (require_api_key (some ("svc1".toList ++ '.' :: "wrong".toList))
        [activeClient] 0 true true).response =
      (require_api_key (some ("svc2".toList ++ '.' :: "sek".toList))
        [inactiveClient] 0 true true).response ∧
    (require_api_key (some ("svc1".toList ++ '.' :: "wrong".toList))
        [activeClient] 0 true true).response = invalidOrInactiveResp :=
  C2_indistinguishable_rejection [activeClient] [inactiveClient]
    "svc1".toList "wrong".toList "svc2".toList "sek".toList 0 0 true true
    (by decide) (by decide) (by decide) (by decide) (by decide) (by decide)
    (Or.inr (Or.inr ⟨activeClient, by decide, by decide⟩))
    (Or.inr (Or.inl ⟨⟨inactiveClient, by decide, by decide⟩, by decide⟩))

/-- C3 counterexample: for the active client whose stored hash has no salt
marker, `check_api_key` raises (returns the bcrypt error) instead of
returning false, and the gate answers with the 500 service-error response,
which differs from every ordinary credential rejection. -/
theorem C3_counterexample :
    check_api_key corruptHashClient "sek".toList = Except.error "Invalid salt" ∧
    require_api_key (some ("bad".toList ++ '.' :: "sek".toList))
        [corruptHashClient] 0 true true =
      { response := serviceErrorResp, clients := [corruptHashClient],
        wrappedInvoked := false } ∧
    serviceErrorResp ≠ invalidOrInactiveResp ∧
    serviceErrorResp ≠ malformedKeyResp := by decide

/-- C3 amended: when the credential resolves to a client whose stored hash is
malformed (no salt marker), verification raises rather than returning false;
the gate catches the exception, so nothing propagates to its caller, but the
rejection surfaces as the 500 service-error response with the client table
unchanged and the wrapped operation not invoked, not as the ordinary
credential rejection. -/
theorem C3_malformed_hash_is_service_error (clients : List ApiClient)
    (n s : List Char) (now : Nat) (commitOk : Bool) (c : ApiClient)
    (hn : hasChar '.' n = false) (hne : n ≠ []) (hse : s ≠ [])
    (hq : query_first_active clients n = some c)
    (hbad : hasChar '$' c.hashed_api_key = false) :
    isError (check_api_key c s) = true ∧
    require_api_key (some (n ++ '.' :: s)) clients now true commitOk =
      { response := serviceErrorResp, clients := clients,
        wrappedInvoked := false } := by
  have hc : check_api_key c s = Except.error "Invalid salt" := by
    simp [check_api_key, checkpw, hbad]
  constructor
  · simp [hc, isError]
  · rw [require_api_key_wellformed n s clients now commitOk hn hne hse]
    simp [hq, hc]

/-- Witness for the amended C3 at the corrupt-hash client. -/
theorem C3_malformed_hash_is_service_error_witness :
    isError (check_api_key corruptHashClient "sek".toList) = true ∧
    require_api_key (some ("bad".toList ++ '.' :: "sek".toList))
        [corruptHashClient] 0 true true =
      { response := serviceErrorResp, clients := [corruptHashClient],
        wrappedInvoked := false } :=
  C3_malformed_hash_is_service_error [corruptHashClient] "bad".toList
    "sek".toList 0 true corruptHashClient (by decide) (by decide) (by decide)
    (by decide) (by decide)

/-- C4 counterexample: creating a client with the empty name succeeds, and
the name validator accepts the empty name, refuting the part of the claim
that says the empty name fails with a validation error. -/
theorem C4_counterexample :
    isError (create_with_api_key [] "sek".toList "ab".toList true) = false ∧
    validate_name [] = Except.ok [] := by decide

/-- C4 amended: client creation fails with the validation error exactly for
names containing a dot; every name without a dot, the empty name included, is
accepted (emptiness is left to database constraints). -/
theorem C4_create_rejects_exactly_dot_names (name api_key salt : List Char)
    (a : Bool) :
    isError (create_with_api_key name api_key salt a) = hasChar '.' name ∧
    (hasChar '.' name = true →
      create_with_api_key name api_key salt a =
        Except.error "Client name cannot contain a dot (\x27.\x27).") := by
  unfold create_with_api_key validate_name
  cases h : hasChar '.' name <;> simp [h, isError]

/-- Witness for the amended C4 at the dotted name `"a.b"`. -/
theorem C4_create_rejects_exactly_dot_names_witness :
    isError (create_with_api_key "a.b".toList "sek".toList "ab".toList true) =
        hasChar '.' "a.b".toList ∧
    create_with_api_key "a.b".toList "sek".toList "ab".toList true =
      Except.error "Client name cannot contain a dot (\x27.\x27)." :=
  ⟨(C4_create_rejects_exactly_dot_names "a.b".toList "sek".toList "ab".toList
      true).1,
    (C4_create_rejects_exactly_dot_names "a.b".toList "sek".toList "ab".toList
      true).2 (by decide)⟩


lemma require_api_key_cases (header : Option (List Char))
    (clients : List ApiClient) (now : Nat) (lookupOk commitOk : Bool) :
    (∃ resp, isAuthReject resp = true ∧
      require_api_key header clients now lookupOk commitOk =
        { response := resp, clients := clients, wrappedInvoked := false }) ∨
    (require_api_key header clients now lookupOk commitOk =
      { response := serviceUnavailableResp, clients := clients,
        wrappedInvoked := false }) ∨
    (require_api_key header clients now lookupOk commitOk =
      { response := serviceErrorResp, clients := clients,
        wrappedInvoked := false }) ∨
    (∃ n, require_api_key header clients now lookupOk commitOk =
      { response := Response.wrapped,
        clients :=
          if commitOk then
            updateFirst (matchesQuery n) (touchUsage now) clients
          else
            clients,
        wrappedInvoked := true }) := by
  unfold require_api_key
  rcases header with _ | hd
  · exact Or.inl ⟨missingCredentialResp, by decide, rfl⟩
  · dsimp only
    split
    · exact Or.inl ⟨missingCredentialResp, by decide, rfl⟩
    · split
      · exact Or.inl ⟨invalidFormatResp, by decide, rfl⟩
      · split
        · exact Or.inl ⟨malformedKeyResp, by decide, rfl⟩
        · split
          · exact Or.inr (Or.inl rfl)
          · split
            · exact Or.inl ⟨invalidOrInactiveResp, by decide, rfl⟩
            · split
              · exact Or.inr (Or.inr (Or.inl rfl))
              · exact Or.inl ⟨invalidOrInactiveResp, by decide, rfl⟩
              · exact Or.inr (Or.inr (Or.inr ⟨_, rfl⟩))

lemma updateFirst_forall2 (p : ApiClient → Bool) (f : ApiClient → ApiClient)
    (l : List ApiClient) :
    List.Forall₂ (fun c c2 => c2 = c ∨ c2 = f c) l (updateFirst p f l) := by
  induction l with
  | nil => exact List.Forall₂.nil
  | cons c cs ih =>
    unfold updateFirst
    by_cases hp : p c
    · rw [if_pos hp]
      exact List.Forall₂.cons (Or.inr rfl)
        (List.forall₂_same.mpr (fun x _ => Or.inl rfl))
    · rw [if_neg hp]
      exact List.Forall₂.cons (Or.inl rfl) ih

/-- C5: whenever the gate rejects with any of its 401 rejections (missing
credential, malformed credential, unknown name, inactive client, or wrong
secret), the client table after the evaluation is exactly the table before
it — in particular every `last_used_at` and `use_count` keeps its prior
value — and the wrapped operation is not invoked. -/
theorem C5_rejection_preserves_state (header : Option (List Char))
    (clients : List ApiClient) (now : Nat) (lookupOk commitOk : Bool)
    (h : isAuthReject
      (require_api_key header clients now lookupOk commitOk).response = true) :
    (require_api_key header clients now lookupOk commitOk).clients = clients ∧
    (require_api_key header clients now lookupOk commitOk).wrappedInvoked =
      false := by
  rcases require_api_key_cases header clients now lookupOk commitOk with
    ⟨resp, _, heq⟩ | heq | heq | ⟨n, heq⟩
  · rw [heq]
    exact ⟨rfl, rfl⟩
  · rw [heq] at h
    simp [isAuthReject, serviceUnavailableResp] at h
  · rw [heq] at h
    simp [isAuthReject, serviceErrorResp] at h
  · rw [heq] at h
    simp [isAuthReject] at h

/-- Witness for C5 at a missing header over a one-client table. -/
theorem C5_rejection_preserves_state_witness :
    (require_api_key none [activeClient] 0 true true).clients =
        [activeClient] ∧
    (require_api_key none [activeClient] 0 true true).wrappedInvoked = false :=
  C5_rejection_preserves_state none [activeClient] 0 true true (by decide)

/-- C6: when verification has succeeded and the usage-statistics commit then
fails, the write is rolled back (the client table is unchanged), the
authorization decision stands, and the wrapped operation is still invoked and
its result returned. -/
theorem C6_usage_write_failure_recovered (clients : List ApiClient)
    (n s : List Char) (now : Nat) (c : ApiClient)
    (hn : hasChar '.' n = false) (hne : n ≠ []) (hse : s ≠ [])
    (hq : query_first_active clients n = some c)
    (hv : check_api_key c s = Except.ok true) :
    require_api_key (some (n ++ '.' :: s)) clients now true false =
      { response := Response.wrapped, clients := clients,
        wrappedInvoked := true } := by
  rw [require_api_key_wellformed n s clients now false hn hne hse]
  simp [hq, hv]

/-- Witness for C6: the valid credential of `svc1` with a failing commit. -/
theorem C6_usage_write_failure_recovered_witness :
    require_api_key (some ("svc1".toList ++ '.' :: "sek".toList))
        [activeClient] 7 true false =
      { response := Response.wrapped, clients := [activeClient],
        wrappedInvoked := true } :=
  C6_usage_write_failure_recovered [activeClient] "svc1".toList "sek".toList
    7 activeClient (by decide) (by decide) (by decide) (by decide) (by decide)

/-- C9: every gate evaluation relates each stored client row to its
post-evaluation counterpart by either leaving `use_count` and `last_used_at`
unchanged or — only when the evaluation admitted the request — incrementing
`use_count` by exactly 1 and setting `last_used_at` to the verification
timestamp; consequently `use_count` never decreases. -/
theorem C9_use_count_monotone (header : Option (List Char))
    (clients : List ApiClient) (now : Nat) (lookupOk commitOk : Bool) :
    List.Forall₂ (fun c c2 =>
        (c2.use_count = c.use_count ∧ c2.last_used_at = c.last_used_at) ∨
        ((require_api_key header clients now lookupOk commitOk).response =
            Response.wrapped ∧
          c2.use_count = c.use_count + 1 ∧ c2.last_used_at = some now))
      clients (require_api_key header clients now lookupOk commitOk).clients ∧
    List.Forall₂ (fun c c2 => c.use_count ≤ c2.use_count)
      clients (require_api_key header clients now lookupOk commitOk).clients := by
  rcases require_api_key_cases header clients now lookupOk commitOk with
    ⟨resp, _, heq⟩ | heq | heq | ⟨n, heq⟩
  · rw [heq]
    exact ⟨List.forall₂_same.mpr (fun x _ => Or.inl ⟨rfl, rfl⟩),
      List.forall₂_same.mpr (fun x _ => Nat.le_refl _)⟩
  · rw [heq]
    exact ⟨List.forall₂_same.mpr (fun x _ => Or.inl ⟨rfl, rfl⟩),
      List.forall₂_same.mpr (fun x _ => Nat.le_refl _)⟩
  · rw [heq]
    exact ⟨List.forall₂_same.mpr (fun x _ => Or.inl ⟨rfl, rfl⟩),
      List.forall₂_same.mpr (fun x _ => Nat.le_refl _)⟩
  · rw [heq]
    by_cases hc : commitOk = true
    · rw [if_pos hc]
      constructor
      · refine (updateFirst_forall2 (matchesQuery n) (touchUsage now)
          clients).imp ?_
        rintro c c2 (rfl | rfl)
        · exact Or.inl ⟨rfl, rfl⟩
        · exact Or.inr ⟨rfl, rfl, rfl⟩
      · refine (updateFirst_forall2 (matchesQuery n) (touchUsage now)
          clients).imp ?_
        rintro c c2 (rfl | rfl)
        · exact Nat.le_refl _
        · exact Nat.le_succ _
    · rw [if_neg hc]
      exact ⟨List.forall₂_same.mpr (fun x _ => Or.inl ⟨rfl, rfl⟩),
        List.forall₂_same.mpr (fun x _ => Nat.le_refl _)⟩


/-- C7: hasher round-trip. For every secret and every salt without the salt
marker, verifying the secret against its own hash succeeds and verifying any
different secret against that hash fails; and the client returned by
`create_with_api_key` satisfies `check_api_key` on exactly the plaintext
secret returned alongside it. -/
theorem C7_hasher_roundtrip (key key2 salt nm : List Char) (a : Bool)
    (hsalt : hasChar '$' salt = false) :
    checkpw key (hashpw key salt) = Except.ok true ∧
    (key2 ≠ key → checkpw key2 (hashpw key salt) = Except.ok false) ∧
    (∀ c pk, create_with_api_key nm key salt a = Except.ok (c, pk) →
      pk = key ∧ check_api_key c key = Except.ok true ∧
      (key2 ≠ key → check_api_key c key2 = Except.ok false)) := by
  have h1 : hasChar '$' (hashpw key salt) = true := by
    unfold hashpw
    exact hasChar_append_cons '$' salt key
  have h2 : splitFirst '$' (hashpw key salt) = (salt, key) := by
    unfold hashpw
    exact splitFirst_append '$' salt key hsalt
  have hok : checkpw key (hashpw key salt) = Except.ok true := by
    simp [checkpw, h1, h2]
  have hko : key2 ≠ key → checkpw key2 (hashpw key salt) = Except.ok false := by
    intro hne
    simp [checkpw, h1, h2]
    exact fun e => absurd e.symm hne
  refine ⟨hok, hko, ?_⟩
  intro c pk hcreate
  unfold create_with_api_key at hcreate
  cases hval : validate_name nm with
  | error e =>
    rw [hval] at hcreate
    exact absurd hcreate (by simp)
  | ok n2 =>
    rw [hval] at hcreate
    simp only [Except.ok.injEq, Prod.mk.injEq] at hcreate
    obtain ⟨hc, hpk⟩ := hcreate
    subst hc
    subst hpk
    refine ⟨rfl, ?_, ?_⟩
    · simpa [check_api_key, set_api_key] using hok
    · intro hne
      simpa [check_api_key, set_api_key] using hko hne

/-- Witness for C7 at the secret `"sek"`, the wrong secret `"bad"`, the salt
`"ab"` and the client name `"svc"`. -/
theorem C7_hasher_roundtrip_witness :
    checkpw "sek".toList (hashpw "sek".toList "ab".toList) = Except.ok true ∧
    checkpw "bad".toList (hashpw "sek".toList "ab".toList) = Except.ok false ∧
    check_api_key
        { name := "svc".toList,
          hashed_api_key := hashpw "sek".toList "ab".toList,
          is_active := true, last_used_at := none, use_count := 0 }
        "sek".toList = Except.ok true ∧
    check_api_key
        { name := "svc".toList,
          hashed_api_key := hashpw "sek".toList "ab".toList,
          is_active := true, last_used_at := none, use_count := 0 }
        "bad".toList = Except.ok false :=
  ⟨(C7_hasher_roundtrip "sek".toList "bad".toList "ab".toList "svc".toList
      true (by decide)).1,
    (C7_hasher_roundtrip "sek".toList "bad".toList "ab".toList "svc".toList
      true (by decide)).2.1 (by decide),
    ((C7_hasher_roundtrip "sek".toList "bad".toList "ab".toList "svc".toList
      true (by decide)).2.2
      { name := "svc".toList,
        hashed_api_key := hashpw "sek".toList "ab".toList,
        is_active := true, last_used_at := none, use_count := 0 }
      "sek".toList (by decide)).2.1,
    ((C7_hasher_roundtrip "sek".toList "bad".toList "ab".toList "svc".toList
      true (by decide)).2.2
      { name := "svc".toList,
        hashed_api_key := hashpw "sek".toList "ab".toList,
        is_active := true, last_used_at := none, use_count := 0 }
      "sek".toList (by decide)).2.2 (by decide)⟩

/-- C10: the no-dot rule is enforced on every assignment of the `name`
attribute, not only at creation: assigning a dotted name to an existing
client raises the `ValueError` and the stored row keeps its prior state, so
the no-dot invariant is preserved by every mutation. -/
theorem C10_rename_preserves_no_dot (c : ApiClient) (n : List Char)
    (h : hasChar '.' n = true) :
    set_name c n =
      Except.error "Client name cannot contain a dot (\x27.\x27)." ∧
    apply_set_name c n = c := by
  have he : set_name c n =
      Except.error "Client name cannot contain a dot (\x27.\x27)." := by
    simp [set_name, validate_name, h]
  exact ⟨he, by simp [apply_set_name, he]⟩

/-- Witness for C10: renaming the active client to `"a.b"` fails and leaves
the row unchanged. -/
theorem C10_rename_preserves_no_dot_witness :
    set_name activeClient "a.b".toList =
      Except.error "Client name cannot contain a dot (\x27.\x27)." ∧
    apply_set_name activeClient "a.b".toList = activeClient :=
  C10_rename_preserves_no_dot activeClient "a.b".toList (by decide)

end Ernesto
